import Mathlib

/-
Verification of the task-handling adapter in `src/xpander_handler.py`.

The handler `my_agent_handler` receives a `Task`, constructs a `Backend`
from the task's configuration, awaits the backend's argument resolution
(`aget_args(task=task)`), constructs an `Agent` from the resolved
arguments, awaits the agent's run on the task rendered as a message, and
finally writes the run result's content onto `task.result` (serialized to
JSON when the task requested `Json` output and the content is a pydantic
`BaseModel`), returning the task.

The collaborators (`Backend.aget_args`, `Agent.__init__`, `Agent.arun`)
are external libraries; they are modelled as oracle functions in an `Env`
record, each returning `Except String _` so that any of them can raise.
The handler itself is embedded as a pure function that also emits an
explicit trace of events (backend construction, the two awaits, agent
construction, the result assignment), so that ordering and suspension
claims can be stated.
-/

namespace Xpander

/-- Modelled from the spec: `OutputFormat` is an enumeration from the
xpander SDK (not in `src/`) "including at least `Json` and a
default/plain variant". -/
inductive OutputFormat where
  | Json
  | Text
deriving DecidableEq, Repr

/-- The task's opaque configuration bag (spec: "opaque settings bag"). -/
abbrev Config := List (String × String)

/-- The opaque mapping of keyword arguments resolved by the backend
(spec: "opaque bag of keyword arguments passed to agent construction"). -/
abbrev Args := List (String × String)

/-- The content of an agent run's result: either a plain value (a string)
or a structured record (a pydantic `BaseModel`, modelled as a list of
string fields). -/
inductive Content where
  | plain : String → Content
  | record : List (String × String) → Content
deriving DecidableEq, Repr

/-- The source's `isinstance(result.content, BaseModel)` check: true
exactly when the content is a structured record. -/
def Content.isBaseModel : Content → Bool
  | .record _ => true
  | .plain _ => false

/-- Escape a character for a JSON string literal. -/
def escChar (c : Char) : String :=
  if c = '"' then "\\\"" else if c = '\\' then "\\\\" else String.singleton c

/-- Escape a string for use inside a JSON string literal. -/
def jsonEscape (s : String) : String :=
  String.join (s.toList.map escChar)

/-- Render a string as a JSON string literal. -/
def jsonString (s : String) : String :=
  "\"" ++ jsonEscape s ++ "\""

/-- Canonical JSON object serialization of a record's fields, in
declaration order, as in the spec's Scenario A. -/
def recordJson (fields : List (String × String)) : String :=
  "\x7b" ++ String.intercalate ", "
    (fields.map fun p => jsonString p.1 ++ ": " ++ jsonString p.2) ++ "\x7d"

/-- Modelled from the spec: pydantic's `BaseModel.model_dump_json` (not in
`src/`), the "canonical JSON serialization" of a structured record. The
handler only calls it under the `isBaseModel` guard, i.e. on `record`s;
the `plain` case is unreachable there and serializes as a JSON string. -/
def Content.model_dump_json : Content → String
  | .record fields => recordJson fields
  | .plain s => jsonString s

/-- Modelled from the spec: the SDK `Task` (not in `src/`) — a unit of
work with a `configuration`, a desired `output_format`, a rendering
operation producing a message string (modelled by the `message` field),
and a mutable `result` field. The `oid` field models the object identity
of the Python instance: field updates keep it, constructing a new task
would change it. -/
structure Task where
  oid : Nat
  configuration : Config
  output_format : OutputFormat
  message : String
  result : Option Content
deriving DecidableEq, Repr

/-- Modelled from the spec: the task's rendering operation `to_message()`
producing a message string. -/
def Task.to_message (t : Task) : String := t.message

/-- The agent run's result object; the handler reads only its `content`
field. -/
structure RunResult where
  content : Content
deriving DecidableEq, Repr

/-- The external collaborators, as oracles. `aget_args cfg t` models
`Backend(configuration=cfg).aget_args(task=t)`: the configuration is the
value given to the `Backend` constructor and the task is the argument of
the awaited resolution call. `agent_init` models `Agent(**args)` (the
constructed agent is represented by its effective arguments), `arun a m`
models `a.arun(message=m)`. Each can raise, modelled by `Except`. -/
structure Env where
  aget_args : Config → Task → Except String Args
  agent_init : Args → Except String Args
  arun : Args → String → Except String RunResult

/-- Observable events of one handler invocation, in program order:
backend construction with the configuration it receives, the awaited
argument-resolution call with the task it receives, agent construction
with the resolved arguments, the awaited run call with the agent and the
message, and the assignment to `task.result`. -/
inductive Event where
  | backendInit : Config → Event
  | awaitArgs : Task → Event
  | agentInit : Args → Event
  | awaitRun : Args → String → Event
  | assignResult : Content → Event
deriving DecidableEq, Repr

/-- Whether an event is one of the two awaited (suspending) calls. -/
def Event.isAwait : Event → Bool
  | .awaitArgs _ => true
  | .awaitRun _ _ => true
  | _ => false

/-- Whether an event is the assignment to `task.result`. -/
def Event.isAssign : Event → Bool
  | .assignResult _ => true
  | _ => false

/-- Outcome of one handler invocation: the returned task or the raised
error, the state of the task object when the handler finished or raised,
and the trace of events that occurred. -/
structure HandlerRun where
  outcome : Except String Task
  final : Task
  events : List Event
deriving Repr

/-- Lines 17–20 of the source: the value assigned to `task.result`. If
`task.output_format == OutputFormat.Json and isinstance(result.content,
BaseModel)` then `result.content.model_dump_json()` (as a string),
otherwise `result.content` itself. -/
def finalize (task : Task) (c : Content) : Content :=
  if task.output_format = OutputFormat.Json ∧ c.isBaseModel = true then
    Content.plain c.model_dump_json
  else c

/-- The handler of `src/xpander_handler.py`, lines 10–21:

    backend = Backend(configuration=task.configuration)
    agno_args = await backend.aget_args(task=task)
    agno_agent = Agent(**agno_args)
    result = await agno_agent.arun(message=task.to_message())
    if task.output_format == OutputFormat.Json and isinstance(result.content, BaseModel):
        task.result = result.content.model_dump_json()
    else:
        task.result = result.content
    return task

Any raise from a collaborator propagates (`.error`) with the task left
untouched, since the only mutation is the final assignment. -/
def my_agent_handler (env : Env) (task : Task) : HandlerRun :=
  match env.aget_args task.configuration task with
  | .error e =>
      ⟨.error e, task, [.backendInit task.configuration, .awaitArgs task]⟩
  | .ok agno_args =>
    match env.agent_init agno_args with
    | .error e =>
        ⟨.error e, task,
          [.backendInit task.configuration, .awaitArgs task, .agentInit agno_args]⟩
    | .ok agno_agent =>
      match env.arun agno_agent task.to_message with
      | .error e =>
          ⟨.error e, task,
            [.backendInit task.configuration, .awaitArgs task, .agentInit agno_args,
             .awaitRun agno_agent task.to_message]⟩
      | .ok result =>
        ⟨.ok { task with result := some (finalize task result.content) },
          { task with result := some (finalize task result.content) },
          [.backendInit task.configuration, .awaitArgs task, .agentInit agno_args,
           .awaitRun agno_agent task.to_message,
           .assignResult (finalize task result.content)]⟩

/-! Characterization lemmas for the four possible run shapes. -/

/-- A fully successful run: all three collaborator calls succeed. -/
theorem handler_ok (env : Env) (task : Task) (args agent : Args) (res : RunResult)
    (h1 : env.aget_args task.configuration task = .ok args)
    (h2 : env.agent_init args = .ok agent)
    (h3 : env.arun agent task.to_message = .ok res) :
    my_agent_handler env task =
      ⟨.ok { task with result := some (finalize task res.content) },
        { task with result := some (finalize task res.content) },
        [.backendInit task.configuration, .awaitArgs task, .agentInit args,
         .awaitRun agent task.to_message,
         .assignResult (finalize task res.content)]⟩ := by
  unfold my_agent_handler
  rw [h1]; simp only [h2, h3]

/-- A run that fails at argument resolution. -/
theorem handler_err_args (env : Env) (task : Task) (e : String)
    (h1 : env.aget_args task.configuration task = .error e) :
    my_agent_handler env task =
      ⟨.error e, task, [.backendInit task.configuration, .awaitArgs task]⟩ := by
  unfold my_agent_handler
  rw [h1]

/-- A run that fails at agent construction. -/
theorem handler_err_init (env : Env) (task : Task) (args : Args) (e : String)
    (h1 : env.aget_args task.configuration task = .ok args)
    (h2 : env.agent_init args = .error e) :
    my_agent_handler env task =
      ⟨.error e, task,
        [.backendInit task.configuration, .awaitArgs task, .agentInit args]⟩ := by
  unfold my_agent_handler
  rw [h1]; simp only [h2]

/-- A run that fails at agent execution. -/
theorem handler_err_run (env : Env) (task : Task) (args agent : Args) (e : String)
    (h1 : env.aget_args task.configuration task = .ok args)
    (h2 : env.agent_init args = .ok agent)
    (h3 : env.arun agent task.to_message = .error e) :
    my_agent_handler env task =
      ⟨.error e, task,
        [.backendInit task.configuration, .awaitArgs task, .agentInit args,
         .awaitRun agent task.to_message]⟩ := by
  unfold my_agent_handler
  rw [h1]; simp only [h2, h3]

/-- Inversion: a successful outcome determines the whole run. -/
theorem handler_ok_inv (env : Env) (task : Task) (t' : Task)
    (h : (my_agent_handler env task).outcome = .ok t') :
    ∃ args agent res,
      env.aget_args task.configuration task = .ok args ∧
      env.agent_init args = .ok agent ∧
      env.arun agent task.to_message = .ok res ∧
      t' = { task with result := some (finalize task res.content) } ∧
      (my_agent_handler env task).final = t' ∧
      (my_agent_handler env task).events =
        [.backendInit task.configuration, .awaitArgs task, .agentInit args,
         .awaitRun agent task.to_message,
         .assignResult (finalize task res.content)] := by
  cases h1 : env.aget_args task.configuration task with
  | error e =>
      rw [handler_err_args env task e h1] at h
      simp at h
  | ok args =>
    cases h2 : env.agent_init args with
    | error e =>
        rw [handler_err_init env task args e h1 h2] at h
        simp at h
    | ok agent =>
      cases h3 : env.arun agent task.to_message with
      | error e =>
          rw [handler_err_run env task args agent e h1 h2 h3] at h
          simp at h
      | ok res =>
        have hrun := handler_ok env task args agent res h1 h2 h3
        rw [hrun] at h
        replace h : { task with result := some (finalize task res.content) } = t' := by
          simpa using h
        refine ⟨args, agent, res, rfl, h2, h3, h.symm, ?_, ?_⟩
        · rw [hrun]; exact h
        · rw [hrun]

/-- In every run, whatever the collaborators do, the final task state
agrees with the input task on everything except possibly `result`. -/
theorem handler_frame (env : Env) (task : Task) :
    (my_agent_handler env task).final.oid = task.oid ∧
    (my_agent_handler env task).final.configuration = task.configuration ∧
    (my_agent_handler env task).final.output_format = task.output_format ∧
    (my_agent_handler env task).final.message = task.message := by
  cases h1 : env.aget_args task.configuration task with
  | error e => rw [handler_err_args env task e h1]; exact ⟨rfl, rfl, rfl, rfl⟩
  | ok args =>
    cases h2 : env.agent_init args with
    | error e => rw [handler_err_init env task args e h1 h2]; exact ⟨rfl, rfl, rfl, rfl⟩
    | ok agent =>
      cases h3 : env.arun agent task.to_message with
      | error e => rw [handler_err_run env task args agent e h1 h2 h3]; exact ⟨rfl, rfl, rfl, rfl⟩
      | ok res => rw [handler_ok env task args agent res h1 h2 h3]; exact ⟨rfl, rfl, rfl, rfl⟩

/-! Concrete collaborator environments and tasks, used by the witnesses
and the counterexample. -/

/-- A fully successful environment whose agent returns the structured
record of the spec's Scenario A. -/
def envW : Env :=
  ⟨fun _ _ => .ok [("model", "gpt")],
   fun a => .ok a,
   fun _ _ => .ok ⟨Content.record [("answer", "42")]⟩⟩

/-- A task requesting `Json` output. -/
def taskW : Task := ⟨7, [("key", "k")], OutputFormat.Json, "hello", none⟩

/-- A fully successful environment whose agent returns a plain string, as
in the spec's Scenario C. -/
def envP : Env :=
  ⟨fun _ _ => .ok [("model", "gpt")],
   fun a => .ok a,
   fun _ _ => .ok ⟨Content.plain "not structured"⟩⟩

/-- An environment whose argument resolution raises, as in the spec's
Scenario D. -/
def envE : Env :=
  ⟨fun _ _ => .error "boom",
   fun a => .ok a,
   fun _ _ => .ok ⟨Content.plain "x"⟩⟩

/-- A task requesting plain (`Text`) output. -/
def taskT : Task := ⟨3, [("key", "k")], OutputFormat.Text, "hi", none⟩

/-- A backend whose argument resolution reads the task's message — a
behaviour the real SDK could exhibit, since the resolution call receives
the whole task object. -/
def envA : Env :=
  ⟨fun _ t => .ok [("msg", t.message)],
   fun a => .ok a,
   fun _ _ => .ok ⟨Content.plain "done"⟩⟩

/-- Two tasks with identical configurations but different messages. -/
def taskX : Task := ⟨1, [("cfg", "c")], OutputFormat.Text, "alpha", none⟩

/-- See `taskX`. -/
def taskY : Task := ⟨1, [("cfg", "c")], OutputFormat.Text, "beta", none⟩

/-! The claims. -/

/-- C1: for every handled task whose `output_format` is `Json` and whose
agent result content is a structured record, the handler succeeds with
`task.result` set to the canonical JSON serialization of that content as
a string. -/
theorem C1_json_structured_serialized (env : Env) (task : Task) (args agent : Args)
    (res : RunResult) (fields : List (String × String))
    (h1 : env.aget_args task.configuration task = .ok args)
    (h2 : env.agent_init args = .ok agent)
    (h3 : env.arun agent task.to_message = .ok res)
    (h4 : task.output_format = OutputFormat.Json)
    (h5 : res.content = Content.record fields) :
    ∃ t', (my_agent_handler env task).outcome = .ok t' ∧
      t'.result = some (Content.plain (recordJson fields)) := by
  have hrun := handler_ok env task args agent res h1 h2 h3
  refine ⟨{ task with result := some (finalize task res.content) }, by rw [hrun], ?_⟩
  simp [finalize, h4, h5, Content.isBaseModel, Content.model_dump_json]

/-- Witness for C1: Scenario A, a `Json` task whose agent returns the
record `[("answer", "42")]`. -/
theorem C1_witness :
    envW.aget_args taskW.configuration taskW = .ok [("model", "gpt")] ∧
    taskW.output_format = OutputFormat.Json ∧
    ∃ t', (my_agent_handler envW taskW).outcome = .ok t' ∧
      t'.result = some (Content.plain (recordJson [("answer", "42")])) :=
  ⟨rfl, rfl,
    C1_json_structured_serialized envW taskW [("model", "gpt")] [("model", "gpt")]
      ⟨Content.record [("answer", "42")]⟩ [("answer", "42")] rfl rfl rfl rfl rfl⟩

/-- C2: for every handled task where `output_format` is not `Json` or the
content is not a structured record, the handler succeeds with
`task.result` set to the raw content value unmodified. -/
theorem C2_raw_passthrough (env : Env) (task : Task) (args agent : Args)
    (res : RunResult)
    (h1 : env.aget_args task.configuration task = .ok args)
    (h2 : env.agent_init args = .ok agent)
    (h3 : env.arun agent task.to_message = .ok res)
    (h4 : task.output_format ≠ OutputFormat.Json ∨ res.content.isBaseModel = false) :
    ∃ t', (my_agent_handler env task).outcome = .ok t' ∧
      t'.result = some res.content := by
  have hrun := handler_ok env task args agent res h1 h2 h3
  have hfin : finalize task res.content = res.content := by
    unfold finalize
    rcases h4 with h4 | h4
    · rw [if_neg]; intro hc; exact h4 hc.1
    · rw [if_neg]; intro hc; rw [h4] at hc; exact Bool.false_ne_true hc.2
  refine ⟨{ task with result := some (finalize task res.content) }, by rw [hrun], ?_⟩
  simp [hfin]

/-- Witness for C2: Scenario C, a `Json` task whose agent returns the
plain string "not structured", passed through unserialized. -/
theorem C2_witness :
    (Content.plain "not structured").isBaseModel = false ∧
    ∃ t', (my_agent_handler envP taskW).outcome = .ok t' ∧
      t'.result = some (Content.plain "not structured") :=
  ⟨rfl,
    C2_raw_passthrough envP taskW [("model", "gpt")] [("model", "gpt")]
      ⟨Content.plain "not structured"⟩ rfl rfl rfl (Or.inr rfl)⟩

/-- C3: if any collaborator call (argument resolution, agent
construction, agent execution) raises an error, the handler raises that
same error unchanged and the task is left untouched — in particular its
`result` field is unchanged. -/
theorem C3_error_propagation (env : Env) (task : Task) (e : String)
    (h : env.aget_args task.configuration task = .error e
      ∨ (∃ args, env.aget_args task.configuration task = .ok args ∧
           env.agent_init args = .error e)
      ∨ (∃ args agent, env.aget_args task.configuration task = .ok args ∧
           env.agent_init args = .ok agent ∧
           env.arun agent task.to_message = .error e)) :
    (my_agent_handler env task).outcome = .error e ∧
    (my_agent_handler env task).final = task ∧
    (my_agent_handler env task).final.result = task.result := by
  rcases h with h1 | ⟨args, h1, h2⟩ | ⟨args, agent, h1, h2, h3⟩
  · rw [handler_err_args env task e h1]; exact ⟨rfl, rfl, rfl⟩
  · rw [handler_err_init env task args e h1 h2]; exact ⟨rfl, rfl, rfl⟩
  · rw [handler_err_run env task args agent e h1 h2 h3]; exact ⟨rfl, rfl, rfl⟩

/-- Witness for C3: Scenario D, argument resolution raises "boom"; the
handler raises "boom" and the task is unchanged. -/
theorem C3_witness :
    envE.aget_args taskW.configuration taskW = .error "boom" ∧
    (my_agent_handler envE taskW).outcome = .error "boom" ∧
    (my_agent_handler envE taskW).final = taskW ∧
    (my_agent_handler envE taskW).final.result = taskW.result :=
  ⟨rfl, C3_error_propagation envE taskW "boom" (Or.inl rfl)⟩

/-- C4 counterexample: the claim says the backend's argument-resolution
operation receives the task's configuration "and not some other value";
in the code the awaited call is `backend.aget_args(task=task)`, which
receives the whole task. With a backend whose resolution reads the
task's message, two tasks with identical configurations resolve to
*different argument bags* — `[("msg", "alpha")]` versus
`[("msg", "beta")]` — and each handler run constructs its agent from its
own bag (the `agentInit` events). So the resolution outcome is not a
function of the configuration alone: the operation received more than
the configuration. -/
theorem C4_counterexample :
    taskX.configuration = taskY.configuration ∧
    envA.aget_args taskX.configuration taskX = .ok [("msg", "alpha")] ∧
    envA.aget_args taskY.configuration taskY = .ok [("msg", "beta")] ∧
    ([("msg", "alpha")] : Args) ≠ [("msg", "beta")] ∧
    Event.agentInit [("msg", "alpha")] ∈ (my_agent_handler envA taskX).events ∧
    Event.agentInit [("msg", "beta")] ∈ (my_agent_handler envA taskY).events :=
  ⟨rfl, rfl, rfl, by decide, by decide, by decide⟩

/-- C4 amended: the handler constructs the backend passing the task's
configuration, and resolves the arguments by awaiting the backend's
argument-resolution operation passing the task itself (so the resolved
arguments may depend on the whole task, not only on its
configuration). -/
theorem C4_amended_resolution_call (env : Env) (task : Task) :
    (my_agent_handler env task).events.take 2 =
      [Event.backendInit task.configuration, Event.awaitArgs task] := by
  cases h1 : env.aget_args task.configuration task with
  | error e => rw [handler_err_args env task e h1]; rfl
  | ok args =>
    cases h2 : env.agent_init args with
    | error e => rw [handler_err_init env task args e h1 h2]; rfl
    | ok agent =>
      cases h3 : env.arun agent task.to_message with
      | error e => rw [handler_err_run env task args agent e h1 h2 h3]; rfl
      | ok res => rw [handler_ok env task args agent res h1 h2 h3]; rfl

/-- C5: on every successful run the returned task's `result` is set, and
the trace contains exactly one assignment to `task.result`. -/
theorem C5_result_set_once (env : Env) (task : Task) (t' : Task)
    (h : (my_agent_handler env task).outcome = .ok t') :
    t'.result.isSome = true ∧
    ((my_agent_handler env task).events.filter Event.isAssign).length = 1 := by
  obtain ⟨args, agent, res, h1, h2, h3, ht, hfin, hev⟩ := handler_ok_inv env task t' h
  subst ht
  exact ⟨rfl, by rw [hev]; rfl⟩

/-- Witness for C5 at the Scenario A environment. -/
theorem C5_witness :
    (my_agent_handler envW taskW).outcome =
      .ok { taskW with result := some (Content.plain (recordJson [("answer", "42")])) } ∧
    ({ taskW with result := some (Content.plain (recordJson [("answer", "42")])) } : Task).result.isSome = true ∧
    ((my_agent_handler envW taskW).events.filter Event.isAssign).length = 1 :=
  ⟨rfl, C5_result_set_once envW taskW
    { taskW with result := some (Content.plain (recordJson [("answer", "42")])) } rfl⟩

/-- C6: on every successful run the trace is exactly backend
construction, awaited argument resolution, agent construction from the
resolved arguments, awaited run of that agent on the task's message, and
result assignment — in this strict order, each step consuming the prior
step's output. -/
theorem C6_strict_ordering (env : Env) (task : Task) (t' : Task)
    (h : (my_agent_handler env task).outcome = .ok t') :
    ∃ args agent res,
      env.aget_args task.configuration task = .ok args ∧
      env.agent_init args = .ok agent ∧
      env.arun agent task.to_message = .ok res ∧
      (my_agent_handler env task).events =
        [Event.backendInit task.configuration, Event.awaitArgs task,
         Event.agentInit args, Event.awaitRun agent task.to_message,
         Event.assignResult (finalize task res.content)] := by
  obtain ⟨args, agent, res, h1, h2, h3, ht, hfin, hev⟩ := handler_ok_inv env task t' h
  exact ⟨args, agent, res, h1, h2, h3, hev⟩

/-- Witness for C6 at the Scenario A environment. -/
theorem C6_witness :
    (my_agent_handler envW taskW).outcome =
      .ok { taskW with result := some (Content.plain (recordJson [("answer", "42")])) } ∧
    ∃ args agent res,
      envW.aget_args taskW.configuration taskW = .ok args ∧
      envW.agent_init args = .ok agent ∧
      envW.arun agent taskW.to_message = .ok res ∧
      (my_agent_handler envW taskW).events =
        [Event.backendInit taskW.configuration, Event.awaitArgs taskW,
         Event.agentInit args, Event.awaitRun agent taskW.to_message,
         Event.assignResult (finalize taskW res.content)] :=
  ⟨rfl, C6_strict_ordering envW taskW
    { taskW with result := some (Content.plain (recordJson [("answer", "42")])) } rfl⟩

/-- C7: on every successful run the handler returns the very task
instance it received (same object identity, modelled by `oid`; the
returned task is the final state of the mutated input task), with its
`result` field populated. -/
theorem C7_returns_same_instance (env : Env) (task : Task) (t' : Task)
    (h : (my_agent_handler env task).outcome = .ok t') :
    t'.oid = task.oid ∧ (my_agent_handler env task).final = t' ∧
    t'.result.isSome = true := by
  obtain ⟨args, agent, res, h1, h2, h3, ht, hfin, hev⟩ := handler_ok_inv env task t' h
  subst ht
  exact ⟨rfl, hfin, rfl⟩

/-- Witness for C7 at the Scenario A environment. -/
theorem C7_witness :
    (my_agent_handler envW taskW).outcome =
      .ok { taskW with result := some (Content.plain (recordJson [("answer", "42")])) } ∧
    ({ taskW with result := some (Content.plain (recordJson [("answer", "42")])) } : Task).oid = taskW.oid ∧
    (my_agent_handler envW taskW).final =
      { taskW with result := some (Content.plain (recordJson [("answer", "42")])) } ∧
    ({ taskW with result := some (Content.plain (recordJson [("answer", "42")])) } : Task).result.isSome = true :=
  ⟨rfl, C7_returns_same_instance envW taskW
    { taskW with result := some (Content.plain (recordJson [("answer", "42")])) } rfl⟩

/-- C8: whatever the collaborators do (success or raise), the handler
leaves every field of the task other than `result` unchanged: the final
task state agrees with the input on identity, configuration, output
format and message. -/
theorem C8_only_result_mutated (env : Env) (task : Task) :
    (my_agent_handler env task).final.oid = task.oid ∧
    (my_agent_handler env task).final.configuration = task.configuration ∧
    (my_agent_handler env task).final.output_format = task.output_format ∧
    (my_agent_handler env task).final.message = task.message :=
  handler_frame env task

/-- C9: on every successful run the trace contains exactly two awaited
(suspending) calls: the backend's argument resolution and the agent's
run, in that order. -/
theorem C9_two_suspension_points (env : Env) (task : Task) (t' : Task)
    (h : (my_agent_handler env task).outcome = .ok t') :
    ∃ agent, ((my_agent_handler env task).events.filter Event.isAwait) =
      [Event.awaitArgs task, Event.awaitRun agent task.to_message] ∧
    ((my_agent_handler env task).events.filter Event.isAwait).length = 2 := by
  obtain ⟨args, agent, res, h1, h2, h3, ht, hfin, hev⟩ := handler_ok_inv env task t' h
  exact ⟨agent, by rw [hev]; rfl, by rw [hev]; rfl⟩

/-- Witness for C9 at the Scenario A environment. -/
theorem C9_witness :
    (my_agent_handler envW taskW).outcome =
      .ok { taskW with result := some (Content.plain (recordJson [("answer", "42")])) } ∧
    ∃ agent, ((my_agent_handler envW taskW).events.filter Event.isAwait) =
      [Event.awaitArgs taskW, Event.awaitRun agent taskW.to_message] ∧
    ((my_agent_handler envW taskW).events.filter Event.isAwait).length = 2 :=
  ⟨rfl, C9_two_suspension_points envW taskW
    { taskW with result := some (Content.plain (recordJson [("answer", "42")])) } rfl⟩

/-- C10: a structured record under a non-`Json` output format is passed
through as the raw structured object, not serialized. -/
theorem C10_record_nonjson_raw (env : Env) (task : Task) (args agent : Args)
    (res : RunResult) (fields : List (String × String))
    (h1 : env.aget_args task.configuration task = .ok args)
    (h2 : env.agent_init args = .ok agent)
    (h3 : env.arun agent task.to_message = .ok res)
    (h4 : task.output_format ≠ OutputFormat.Json)
    (h5 : res.content = Content.record fields) :
    ∃ t', (my_agent_handler env task).outcome = .ok t' ∧
      t'.result = some (Content.record fields) := by
  have hrun := handler_ok env task args agent res h1 h2 h3
  have hfin : finalize task res.content = res.content := by
    unfold finalize
    rw [if_neg]; intro hc; exact h4 hc.1
  refine ⟨{ task with result := some (finalize task res.content) }, by rw [hrun], ?_⟩
  have hrec : finalize task res.content = Content.record fields := hfin.trans h5
  simp [hrec]

/-- Witness for C10: a `Text` task whose agent returns a structured
record receives the record itself as its result. -/
theorem C10_witness :
    taskT.output_format ≠ OutputFormat.Json ∧
    ∃ t', (my_agent_handler envW taskT).outcome = .ok t' ∧
      t'.result = some (Content.record [("answer", "42")]) :=
  ⟨by decide,
    C10_record_nonjson_raw envW taskT [("model", "gpt")] [("model", "gpt")]
      ⟨Content.record [("answer", "42")]⟩ [("answer", "42")] rfl rfl rfl (by decide) rfl⟩

end Xpander
